import Mathlib

/-!
Verification of the Delayed Mirror service worker (sw.js) and the frame
ring buffer described in the project documentation.

The service worker state is modelled shallowly: the browser cache storage
becomes an association list from cache names to cache stores, a cache store
an association list from request URLs to responses, and the event handlers
(install, activate, fetch, message) become pure functions from the relevant
inputs (a network fetcher, the cache state, a request or message) to the
resulting state together with flags recording the observable effects
(whether the waitUntil promise fulfilled, whether skipWaiting was called,
whether the network was consulted).
-/

namespace DelayedMirror

/-- sw.js line 37: the versioned cache name. -/
def CACHE_NAME : String := "delayed-mirror-v1.0.0"

/-- sw.js lines 52-64: the static asset list cached at install time. -/
def FILES_TO_CACHE : List String :=
  ["/", "/index.html", "/manifest.json",
   "/icons/icon-72.png", "/icons/icon-96.png", "/icons/icon-128.png",
   "/icons/icon-144.png", "/icons/icon-152.png", "/icons/icon-192.png",
   "/icons/icon-384.png", "/icons/icon-512.png"]

/-- A network response: status code, status text, response type
(the value of Response.type, e.g. "basic" for same-origin), and body. -/
structure Response where
  status : Nat
  statusText : String
  type : String
  body : String
deriving DecidableEq

/-- One named cache: request URL to stored response. -/
abbrev CacheStore := List (String × Response)

/-- The browser cache storage: cache name to cache store. -/
abbrev Caches := List (String × CacheStore)

/-- Look a URL up in one cache store (first binding wins). -/
def lookupStore : CacheStore → String → Option Response
  | [], _ => none
  | (u, r) :: rest, url => if u = url then some r else lookupStore rest url

/-- Cache.put: overwrite the binding for a URL, or append a fresh one. -/
def storePut : CacheStore → String → Response → CacheStore
  | [], url, r => [(url, r)]
  | (u, r0) :: rest, url, r =>
      if u = url then (u, r) :: rest else (u, r0) :: storePut rest url r

/-- Look a cache name up in the cache storage. -/
def lookupCache : Caches → String → Option CacheStore
  | [], _ => none
  | (n, s) :: rest, name => if n = name then some s else lookupCache rest name

/-- caches.has: the named cache exists. -/
def hasCache (cs : Caches) (name : String) : Bool :=
  (lookupCache cs name).isSome

/-- caches.match: search every cache in order for the request URL. -/
def cachesMatch : Caches → String → Option Response
  | [], _ => none
  | (_, s) :: rest, url =>
      match lookupStore s url with
      | some r => some r
      | none => cachesMatch rest url

/-- caches.open when only existence matters: create the cache if absent. -/
def cachesOpen (cs : Caches) (name : String) : Caches :=
  if hasCache cs name then cs else cs ++ [(name, [])]

/-- Replace the store of the named cache, creating the cache if absent. -/
def cacheSet : Caches → String → CacheStore → Caches
  | [], name, s => [(name, s)]
  | (n, s0) :: rest, name, s =>
      if n = name then (n, s) :: rest else (n, s0) :: cacheSet rest name s

/-- caches.open(name) followed by cache.put(url, r). -/
def cachePut : Caches → String → String → Response → Caches
  | [], name, url, r => [(name, [(url, r)])]
  | (n, s) :: rest, name, url, r =>
      if n = name then (n, storePut s url r) :: rest
      else (n, s) :: cachePut rest name url r

/-- caches.delete: remove the named cache. -/
def cacheDelete : Caches → String → Caches
  | [], _ => []
  | (n, s) :: rest, name =>
      if n = name then cacheDelete rest name else (n, s) :: cacheDelete rest name

/-- Prefix test on character lists (structural, so it evaluates in the
kernel). -/
def charListPrefix : List Char → List Char → Bool
  | [], _ => true
  | _ :: _, [] => false
  | a :: as, b :: bs => if a = b then charListPrefix as bs else false

/-- JS String.prototype.startsWith(p) on s, modelled on the underlying
character lists. -/
def strStartsWith (s p : String) : Bool := charListPrefix p.data s.data

/-- sw.js lines 126-164, activate handler: enumerate the cache names and
delete every cache whose name starts with "delayed-mirror-" and differs
from CACHE_NAME (the filter at lines 141-146 followed by caches.delete). -/
def activateHandler : Caches → Caches
  | [] => []
  | (n, s) :: rest =>
      if strStartsWith n "delayed-mirror-" = true ∧ n ≠ CACHE_NAME then
        activateHandler rest
      else
        (n, s) :: activateHandler rest

lemma lookupCache_activateHandler (cs : Caches) (name : String) :
    lookupCache (activateHandler cs) name =
      if strStartsWith name "delayed-mirror-" = true ∧ name ≠ CACHE_NAME then none
      else lookupCache cs name := by
  induction cs with
  | nil => simp [activateHandler, lookupCache]
  | cons p rest ih =>
    obtain ⟨n, s⟩ := p
    by_cases hn : strStartsWith n "delayed-mirror-" = true ∧ n ≠ CACHE_NAME
    · rw [activateHandler, if_pos hn, ih]
      by_cases hname : strStartsWith name "delayed-mirror-" = true ∧ name ≠ CACHE_NAME
      · rw [if_pos hname, if_pos hname]
      · rw [if_neg hname, if_neg hname, lookupCache]
        have hne : n ≠ name := by
          intro h
          exact hname (h ▸ hn)
        rw [if_neg hne]
    · rw [activateHandler, if_neg hn, lookupCache]
      by_cases he : n = name
      · subst he
        rw [if_pos rfl, if_neg hn, lookupCache, if_pos rfl]
      · rw [if_neg he, ih]
        by_cases hname : strStartsWith name "delayed-mirror-" = true ∧ name ≠ CACHE_NAME
        · rw [if_pos hname, if_pos hname]
        · rw [if_neg hname, if_neg hname, lookupCache, if_neg he]

/-- Claim C2: for every set of existing caches, the activate handler keeps a
cache name present exactly when it was present before and is not a stale
app cache (prefix "delayed-mirror-" with a name other than CACHE_NAME);
in particular the cache named CACHE_NAME is never deleted. -/
theorem activate_deletes_exactly_stale (cs : Caches) (name : String) :
    (hasCache (activateHandler cs) name = true ↔
      hasCache cs name = true ∧
        ¬(strStartsWith name "delayed-mirror-" = true ∧ name ≠ CACHE_NAME)) ∧
    (hasCache cs CACHE_NAME = true → hasCache (activateHandler cs) CACHE_NAME = true) := by
  constructor
  · unfold hasCache
    rw [lookupCache_activateHandler]
    by_cases hname : strStartsWith name "delayed-mirror-" = true ∧ name ≠ CACHE_NAME
    · rw [if_pos hname]
      simp [hname]
    · rw [if_neg hname]
      simp [hname]
  · intro h
    unfold hasCache at h ⊢
    rw [lookupCache_activateHandler, if_neg]
    · exact h
    · intro hcontra
      exact hcontra.2 rfl

/-- A sample cache storage holding one stale app cache, the current app
cache and an unrelated cache. -/
def cs0 : Caches :=
  [("delayed-mirror-v0.9.0", []), (CACHE_NAME, []), ("other-cache", [])]

/-- Witness for C2 at a concrete storage: the current cache survives
activation. -/
theorem activate_deletes_exactly_stale_witness :
    hasCache cs0 CACHE_NAME = true ∧
      hasCache (activateHandler cs0) CACHE_NAME = true :=
  ⟨by decide, (activate_deletes_exactly_stale cs0 CACHE_NAME).2 (by decide)⟩

/-- Claim C9: a cache whose name does not start with "delayed-mirror-" is
left untouched by the activate handler: it is looked up to the very same
store afterwards. -/
theorem activate_preserves_foreign_caches (cs : Caches) (name : String)
    (h : strStartsWith name "delayed-mirror-" = false) :
    lookupCache (activateHandler cs) name = lookupCache cs name := by
  rw [lookupCache_activateHandler, if_neg]
  intro hcontra
  rw [hcontra.1] at h
  exact Bool.noConfusion h

/-- Witness for C9: the unrelated cache of the sample storage is intact
after activation. -/
theorem activate_preserves_foreign_caches_witness :
    lookupCache (activateHandler cs0) "other-cache" =
      lookupCache cs0 "other-cache" :=
  activate_preserves_foreign_caches cs0 "other-cache" (by decide)

/-- A request as seen by the fetch handler: method, URL, the protocol of
the parsed URL (with its trailing colon, as URL.protocol yields it), and
the request mode ("navigate" for page navigations). -/
structure Request where
  method : String
  url : String
  protocol : String
  mode : String
deriving DecidableEq

/-- The outcome of fetch(request): resolution with a (possibly null)
response, or rejection (network failure). -/
inductive NetworkResult where
  | ok : Option Response → NetworkResult
  | err : NetworkResult
deriving DecidableEq

/-- What the fetch handler did with an event: returned without calling
respondWith, or responded with the given (possibly null) response. -/
inductive FetchOutcome where
  | notHandled : FetchOutcome
  | responded : Option Response → FetchOutcome
deriving DecidableEq

/-- The full effect of one fetch event: the outcome, the cache storage
afterwards, and whether the network was consulted. -/
structure FetchResult where
  outcome : FetchOutcome
  caches : Caches
  networkUsed : Bool
deriving DecidableEq

/-- sw.js lines 260-263: the synthetic offline response
new Response('Offline', status 503, statusText 'Service Unavailable'). -/
def offlineResponse : Response :=
  { status := 503, statusText := "Service Unavailable",
    type := "default", body := "Offline" }

/-- sw.js lines 181-267, fetch handler. Early returns for non-GET methods
(line 186) and protocols not starting with "http" (line 199); otherwise
caches.match first (line 204), network on miss (line 215), caching the
response when it is non-null with status 200 and type "basic"
(lines 224-240), and on network failure the cached /index.html for
navigations or the synthetic 503 (lines 255-263). -/
def fetchHandler (network : Request → NetworkResult) (cs : Caches)
    (req : Request) : FetchResult :=
  if req.method ≠ "GET" then ⟨.notHandled, cs, false⟩
  else if ¬(strStartsWith req.protocol "http" = true) then ⟨.notHandled, cs, false⟩
  else
    match cachesMatch cs req.url with
    | some r => ⟨.responded (some r), cs, false⟩
    | none =>
      match network req with
      | .ok none => ⟨.responded none, cs, true⟩
      | .ok (some resp) =>
        if resp.status ≠ 200 ∨ resp.type ≠ "basic" then
          ⟨.responded (some resp), cs, true⟩
        else
          ⟨.responded (some resp), cachePut cs CACHE_NAME req.url resp, true⟩
      | .err =>
        if req.mode = "navigate" then
          ⟨.responded (cachesMatch cs "/index.html"), cs, true⟩
        else
          ⟨.responded (some offlineResponse), cs, true⟩

lemma fetchHandler_hit (network : Request → NetworkResult) (cs : Caches)
    (req : Request) (r : Response)
    (hm : req.method = "GET")
    (hp : strStartsWith req.protocol "http" = true)
    (hc : cachesMatch cs req.url = some r) :
    fetchHandler network cs req = ⟨.responded (some r), cs, false⟩ := by
  rw [fetchHandler, if_neg (by rw [hm]; exact fun h => h rfl),
    if_neg (by rw [hp]; exact fun h => h rfl), hc]

lemma lookupStore_storePut (s : CacheStore) (url : String) (r : Response) :
    lookupStore (storePut s url r) url = some r := by
  induction s with
  | nil => simp [storePut, lookupStore]
  | cons p rest ih =>
    obtain ⟨u, r0⟩ := p
    by_cases he : u = url
    · rw [storePut, if_pos he, lookupStore, if_pos he]
    · rw [storePut, if_neg he, lookupStore, if_neg he, ih]

lemma cachesMatch_cachePut (cs : Caches) (name url : String) (r : Response)
    (h : cachesMatch cs url = none) :
    cachesMatch (cachePut cs name url r) url = some r := by
  induction cs with
  | nil => simp [cachePut, cachesMatch, lookupStore]
  | cons p rest ih =>
    obtain ⟨n, s⟩ := p
    rw [cachesMatch] at h
    cases hs : lookupStore s url with
    | some r0 => rw [hs] at h; exact absurd h (by simp)
    | none =>
      rw [hs] at h
      by_cases he : n = name
      · rw [cachePut, if_pos he, cachesMatch, lookupStore_storePut]
      · rw [cachePut, if_neg he, cachesMatch, hs, ih h]

/-- Claim C4: a GET request (with an http(s) URL, the only kind the Cache
API can hold) whose URL is present in some cache is answered with the
cached response, the cache storage is unchanged, and the network is not
consulted. -/
theorem fetch_cache_hit (network : Request → NetworkResult) (cs : Caches)
    (req : Request) (r : Response)
    (hm : req.method = "GET")
    (hp : strStartsWith req.protocol "http" = true)
    (hc : cachesMatch cs req.url = some r) :
    fetchHandler network cs req = ⟨.responded (some r), cs, false⟩ :=
  fetchHandler_hit network cs req r hm hp hc

/-- A cached copy of the main document. -/
def respIndex : Response :=
  { status := 200, statusText := "OK", type := "basic", body := "<html>" }

/-- A cache storage holding only the current app cache with /index.html. -/
def cs1 : Caches := [(CACHE_NAME, [("/index.html", respIndex)])]

/-- A network that always fails. -/
def netErr : Request → NetworkResult := fun _ => .err

/-- Witness for C4: a concrete GET request for the cached /index.html is
served from the cache without touching the failing network. -/
theorem fetch_cache_hit_witness :
    fetchHandler netErr cs1 ⟨"GET", "/index.html", "https:", "navigate"⟩ =
      ⟨.responded (some respIndex), cs1, false⟩ :=
  fetch_cache_hit netErr cs1 ⟨"GET", "/index.html", "https:", "navigate"⟩
    respIndex (by decide) (by decide) (by decide)

/-- Claim C5: on a GET cache miss whose network fetch yields a response
with status 200 and type "basic", the handler responds with that response,
stores a copy under the request URL in the current cache so the URL is now
present, and a subsequent identical request is served from the cache
without the network. -/
theorem fetch_miss_caches_success (network : Request → NetworkResult)
    (cs : Caches) (req : Request) (resp : Response)
    (hm : req.method = "GET")
    (hp : strStartsWith req.protocol "http" = true)
    (hc : cachesMatch cs req.url = none)
    (hn : network req = .ok (some resp))
    (hs : resp.status = 200)
    (ht : resp.type = "basic") :
    fetchHandler network cs req =
      ⟨.responded (some resp), cachePut cs CACHE_NAME req.url resp, true⟩ ∧
    cachesMatch (cachePut cs CACHE_NAME req.url resp) req.url = some resp ∧
    fetchHandler network (cachePut cs CACHE_NAME req.url resp) req =
      ⟨.responded (some resp), cachePut cs CACHE_NAME req.url resp, false⟩ := by
  have hpresent := cachesMatch_cachePut cs CACHE_NAME req.url resp hc
  refine ⟨?_, hpresent, fetchHandler_hit _ _ _ _ hm hp hpresent⟩
  simp [fetchHandler, hm, hp, hc, hn, hs, ht]

/-- A fresh same-origin stylesheet response. -/
def respCss : Response :=
  { status := 200, statusText := "OK", type := "basic", body := "body{}" }

/-- A network that serves /style.css and fails everything else. -/
def netCss : Request → NetworkResult :=
  fun r => if r.url = "/style.css" then .ok (some respCss) else .err

/-- Witness for C5: a concrete miss for /style.css is fetched, cached and
then served from the cache on the identical follow-up request. -/
theorem fetch_miss_caches_success_witness :
    fetchHandler netCss [] ⟨"GET", "/style.css", "https:", "no-cors"⟩ =
      ⟨.responded (some respCss),
        cachePut [] CACHE_NAME "/style.css" respCss, true⟩ ∧
    cachesMatch (cachePut [] CACHE_NAME "/style.css" respCss) "/style.css" =
      some respCss ∧
    fetchHandler netCss (cachePut [] CACHE_NAME "/style.css" respCss)
        ⟨"GET", "/style.css", "https:", "no-cors"⟩ =
      ⟨.responded (some respCss),
        cachePut [] CACHE_NAME "/style.css" respCss, false⟩ :=
  fetch_miss_caches_success netCss [] ⟨"GET", "/style.css", "https:", "no-cors"⟩
    respCss (by decide) (by decide) (by decide) (by decide) (by decide) (by decide)

/-- Claim C6: on a GET cache miss whose network fetch rejects, a
navigation request is answered with the cached /index.html (the cached
root document), and any other request with the synthetic 503 offline
response. -/
theorem fetch_network_failure (network : Request → NetworkResult)
    (cs : Caches) (req : Request)
    (hm : req.method = "GET")
    (hp : strStartsWith req.protocol "http" = true)
    (hc : cachesMatch cs req.url = none)
    (hn : network req = .err) :
    (req.mode = "navigate" → ∀ r0 : Response,
      cachesMatch cs "/index.html" = some r0 →
      fetchHandler network cs req = ⟨.responded (some r0), cs, true⟩) ∧
    (req.mode ≠ "navigate" →
      fetchHandler network cs req = ⟨.responded (some offlineResponse), cs, true⟩) ∧
    offlineResponse.status = 503 := by
  rw [fetchHandler, if_neg (by rw [hm]; exact fun h => h rfl),
    if_neg (by rw [hp]; exact fun h => h rfl), hc, hn]
  refine ⟨fun hnav r0 hr0 => ?_, fun hnav => ?_, rfl⟩
  · rw [if_pos hnav, hr0]
  · rw [if_neg hnav]

/-- Witness for C6: with the sample cache, a failed navigation to a
missing page yields the cached /index.html, and a failed image request
yields the synthetic 503. -/
theorem fetch_network_failure_witness :
    fetchHandler netErr cs1 ⟨"GET", "/missing-page", "https:", "navigate"⟩ =
      ⟨.responded (some respIndex), cs1, true⟩ ∧
    fetchHandler netErr cs1 ⟨"GET", "/missing.png", "https:", "img"⟩ =
      ⟨.responded (some offlineResponse), cs1, true⟩ :=
  ⟨(fetch_network_failure netErr cs1 ⟨"GET", "/missing-page", "https:", "navigate"⟩
      (by decide) (by decide) (by decide) rfl).1 rfl respIndex (by decide),
   ((fetch_network_failure netErr cs1 ⟨"GET", "/missing.png", "https:", "img"⟩
      (by decide) (by decide) (by decide) rfl).2).1 (by decide)⟩

/-- Counterexample to C7 as stated: the scheme check at sw.js line 199 is
a prefix test, so a GET request whose scheme is "httpx:" — neither http
nor https — is still handled (the handler calls respondWith). -/
theorem fetch_scheme_counterexample :
    (Request.mk "GET" "httpx://example/a" "httpx:" "cors").protocol ≠ "http:" ∧
    (Request.mk "GET" "httpx://example/a" "httpx:" "cors").protocol ≠ "https:" ∧
    (fetchHandler netErr [] ⟨"GET", "httpx://example/a", "httpx:", "cors"⟩).outcome ≠
      FetchOutcome.notHandled := by decide

/-- Claim C7 as amended: every request whose method is not GET, and every
request whose URL protocol does not start with "http", is passed through
unhandled: no respondWith, caches unchanged, no network use. -/
theorem fetch_passthrough (network : Request → NetworkResult) (cs : Caches)
    (req : Request)
    (h : req.method ≠ "GET" ∨ strStartsWith req.protocol "http" = false) :
    fetchHandler network cs req = ⟨.notHandled, cs, false⟩ := by
  rw [fetchHandler]
  rcases h with h | h
  · rw [if_pos h]
  · by_cases hm : req.method ≠ "GET"
    · rw [if_pos hm]
    · rw [if_neg hm, if_pos (by rw [h]; exact fun hc => Bool.noConfusion hc)]

/-- Witness for C7 (amended): a POST request and a chrome-extension GET
request both pass through. -/
theorem fetch_passthrough_witness :
    fetchHandler netErr cs1 ⟨"POST", "/index.html", "https:", "cors"⟩ =
      ⟨.notHandled, cs1, false⟩ ∧
    fetchHandler netErr cs1 ⟨"GET", "chrome-extension://x/a", "chrome-extension:", "cors"⟩ =
      ⟨.notHandled, cs1, false⟩ :=
  ⟨fetch_passthrough netErr cs1 ⟨"POST", "/index.html", "https:", "cors"⟩
      (Or.inl (by decide)),
   fetch_passthrough netErr cs1
      ⟨"GET", "chrome-extension://x/a", "chrome-extension:", "cors"⟩
      (Or.inr (by decide))⟩

/-- Claim C10: on a GET cache miss whose network fetch resolves with a
null response, a non-200 status, or a type other than "basic", the handler
returns that very response and leaves the cache storage unchanged. -/
theorem fetch_uncacheable_response (network : Request → NetworkResult)
    (cs : Caches) (req : Request) (ro : Option Response)
    (hm : req.method = "GET")
    (hp : strStartsWith req.protocol "http" = true)
    (hc : cachesMatch cs req.url = none)
    (hn : network req = .ok ro)
    (hu : ro = none ∨ ∃ resp : Response, ro = some resp ∧
      (resp.status ≠ 200 ∨ resp.type ≠ "basic")) :
    fetchHandler network cs req = ⟨.responded ro, cs, true⟩ := by
  rw [fetchHandler, if_neg (by rw [hm]; exact fun h => h rfl),
    if_neg (by rw [hp]; exact fun h => h rfl), hc, hn]
  rcases hu with h | ⟨resp, hro, hbad⟩
  · rw [h]
  · subst hro
    simp [hbad]

/-- A same-origin 404 response. -/
def resp404 : Response :=
  { status := 404, statusText := "Not Found", type := "basic", body := "" }

/-- A network that always yields the 404 response. -/
def net404 : Request → NetworkResult := fun _ => .ok (some resp404)

/-- Witness for C10: a concrete miss answered 404 is returned as is and
nothing is cached. -/
theorem fetch_uncacheable_response_witness :
    fetchHandler net404 [] ⟨"GET", "/nope", "https:", "img"⟩ =
      ⟨.responded (some resp404), [], true⟩ :=
  fetch_uncacheable_response net404 [] ⟨"GET", "/nope", "https:", "img"⟩
    (some resp404) (by decide) (by decide) (by decide) rfl
    (Or.inr ⟨resp404, rfl, Or.inl (by decide)⟩)

/-- The effect of one message event: the cache storage afterwards and
whether skipWaiting was called. -/
structure MessageResult where
  caches : Caches
  skipWaitingCalled : Bool
deriving DecidableEq

/-- sw.js lines 280-296, message handler: on the literal 'skipWaiting'
call self.skipWaiting(), on the literal 'clearCache' delete the cache
named CACHE_NAME; anything else only gets logged. -/
def messageHandler (data : String) (cs : Caches) : MessageResult :=
  { caches := if data = "clearCache" then cacheDelete cs CACHE_NAME else cs,
    skipWaitingCalled := data == "skipWaiting" }

lemma lookupCache_cacheDelete (cs : Caches) (name : String) :
    lookupCache (cacheDelete cs name) name = none := by
  induction cs with
  | nil => rfl
  | cons p rest ih =>
    obtain ⟨n, s⟩ := p
    by_cases he : n = name
    · rw [cacheDelete, if_pos he, ih]
    · rw [cacheDelete, if_neg he, lookupCache, if_neg he, ih]

/-- Claim C8: the message handler reacts to exactly the two literal
tokens: 'skipWaiting' calls skipWaiting and leaves the caches alone,
'clearCache' deletes the cache named CACHE_NAME (which is then absent)
without calling skipWaiting, and every other message changes nothing. -/
theorem message_handler_tokens (cs : Caches) :
    messageHandler "skipWaiting" cs = ⟨cs, true⟩ ∧
    messageHandler "clearCache" cs = ⟨cacheDelete cs CACHE_NAME, false⟩ ∧
    lookupCache (messageHandler "clearCache" cs).caches CACHE_NAME = none ∧
    (∀ d : String, d ≠ "skipWaiting" → d ≠ "clearCache" →
      messageHandler d cs = ⟨cs, false⟩) := by
  refine ⟨rfl, rfl, lookupCache_cacheDelete cs CACHE_NAME, ?_⟩
  intro d h1 h2
  simp [messageHandler, h1, h2]

/-- Witness for C8 at the sample storage: an unknown token is a no-op. -/
theorem message_handler_tokens_witness :
    messageHandler "hello" cs0 = ⟨cs0, false⟩ :=
  (message_handler_tokens cs0).2.2.2 "hello" (by decide) (by decide)

/-- Fetch all URLs of a list, failing as a whole when any single fetch
fails (the fetching half of Cache.addAll). -/
def fetchAll (fetcher : String → Option Response) :
    List String → Option (List (String × Response))
  | [] => some []
  | u :: rest =>
    match fetcher u with
    | none => none
    | some r =>
      match fetchAll fetcher rest with
      | none => none
      | some l => some ((u, r) :: l)

/-- Cache.addAll: fetch every URL, then store all responses as a batch;
if any fetch fails the whole operation fails and the store is untouched
(the operation is atomic per the Cache API). -/
def addAll (fetcher : String → Option Response) (urls : List String)
    (s : CacheStore) : Option CacheStore :=
  (fetchAll fetcher urls).map
    (fun entries => entries.foldl (fun acc p => storePut acc p.1 p.2) s)

/-- The effect of the install event: the cache storage afterwards, whether
the promise handed to event.waitUntil fulfilled (so the browser records
the install as successful), and whether skipWaiting was called. -/
structure InstallResult where
  caches : Caches
  resolved : Bool
  skipWaitingCalled : Bool
deriving DecidableEq

/-- sw.js lines 77-112, install handler: caches.open(CACHE_NAME) (which
creates the cache when absent), then cache.addAll(FILES_TO_CACHE), then
skipWaiting; the trailing .catch at lines 108-110 logs any error and
thereby fulfils the promise handed to waitUntil, so resolved is true on
both paths. -/
def installHandler (fetcher : String → Option Response) (cs : Caches) :
    InstallResult :=
  let cs1 := cachesOpen cs CACHE_NAME
  let store := (lookupCache cs1 CACHE_NAME).getD []
  match addAll fetcher FILES_TO_CACHE store with
  | some store1 => ⟨cacheSet cs1 CACHE_NAME store1, true, true⟩
  | none => ⟨cs1, true, false⟩

/-- A fetcher for which exactly one asset of the static list fails. -/
def failFetcher : String → Option Response :=
  fun u =>
    if u = "/icons/icon-512.png" then none
    else some { status := 200, statusText := "OK", type := "basic", body := u }

/-- Claim C1 fails on the code: with a fetcher that fails on one asset of
FILES_TO_CACHE, the promise handed to waitUntil still fulfils (the
trailing .catch swallows the rejection), skipWaiting is not reached, and
the install is recorded as successful although not even /index.html was
cached — contradicting the comment at sw.js line 91 and the spec, which
both say such an install fails. -/
theorem install_swallows_failure :
    failFetcher "/icons/icon-512.png" = none ∧
    (installHandler failFetcher []).resolved = true ∧
    (installHandler failFetcher []).skipWaitingCalled = false ∧
    cachesMatch (installHandler failFetcher []).caches "/index.html" = none := by
  decide

/-- The success side of the install handler, for contrast: when every
fetch succeeds, the install fulfils, skipWaiting runs and the assets are
cached. -/
theorem install_success_populates (fetcher : String → Option Response)
    (entries : List (String × Response))
    (hall : fetchAll fetcher FILES_TO_CACHE = some entries) :
    (installHandler fetcher []).resolved = true ∧
    (installHandler fetcher []).skipWaitingCalled = true := by
  rw [installHandler]
  simp only [addAll, hall, Option.map_some]
  exact ⟨rfl, rfl⟩

/-- Witness for the install success theorem with an always-succeeding
fetcher. -/
theorem install_success_populates_witness :
    (installHandler (fun u => some ⟨200, "OK", "basic", u⟩) []).resolved = true ∧
    (installHandler (fun u => some ⟨200, "OK", "basic", u⟩) []).skipWaitingCalled = true :=
  install_success_populates (fun u => some ⟨200, "OK", "basic", u⟩)
    (FILES_TO_CACHE.map (fun u => (u, ⟨200, "OK", "basic", u⟩))) (by decide)

/-- Modelled from the spec: the frame ring buffer lives in index.html,
which is not among the sources here; this follows spec sections 3, 4.1
and 8 — a fixed-capacity circular array sized rate × delaySeconds with a
write cursor whose slot always holds the oldest live sample, plus a count
of the frames captured so far. -/
structure RingBuffer (α : Type) where
  capacity : Nat
  slots : Nat → Option α
  writePos : Nat
  total : Nat

/-- Modelled from the spec: a fresh buffer for frame rate `rate` and delay
`delaySeconds`, capacity rate × delaySeconds, no frame captured yet. -/
def RingBuffer.empty (α : Type) (rate delaySeconds : Nat) : RingBuffer α :=
  ⟨rate * delaySeconds, fun _ => none, 0, 0⟩

/-- Modelled from the spec: push(frame) stores the newest sample in the
slot under the write cursor — overwriting the oldest sample once the
buffer is full — and advances the cursor modulo the capacity. -/
def RingBuffer.push (b : RingBuffer α) (x : α) : RingBuffer α :=
  if b.capacity = 0 then b
  else
    { b with
      slots := fun i => if i = b.writePos then some x else b.slots i,
      writePos := (b.writePos + 1) % b.capacity,
      total := b.total + 1 }

/-- Modelled from the spec: readDelayed() returns the frame exactly
delayFrames (= capacity) samples behind the write position — the slot the
write cursor points at, which is the oldest live sample — or nothing when
fewer than capacity frames have been captured yet. -/
def RingBuffer.readDelayed (b : RingBuffer α) : Option α :=
  if b.total < b.capacity then none else b.slots b.writePos

/-- Push the frames f 0, f 1, ..., f (n-1) in order. -/
def pushSeq (b : RingBuffer α) (f : Nat → α) : Nat → RingBuffer α
  | 0 => b
  | n + 1 => (pushSeq b f n).push (f n)

lemma pushSeq_invariant {α : Type} (R D : Nat) (hc : 0 < R * D) (f : Nat → α)
    (n : Nat) :
    (pushSeq (RingBuffer.empty α R D) f n).capacity = R * D ∧
    (pushSeq (RingBuffer.empty α R D) f n).total = n ∧
    (pushSeq (RingBuffer.empty α R D) f n).writePos = n % (R * D) ∧
    ∀ j : Nat, j < n → n ≤ j + R * D →
      (pushSeq (RingBuffer.empty α R D) f n).slots (j % (R * D)) = some (f j) := by
  induction n with
  | zero =>
    refine ⟨rfl, rfl, (Nat.zero_mod (R * D)).symm, ?_⟩
    intro j hj _
    exact absurd hj (Nat.not_lt_zero j)
  | succ n ih =>
    obtain ⟨hcap, htot, hpos, hslots⟩ := ih
    have hc0 : ¬((pushSeq (RingBuffer.empty α R D) f n).capacity = 0) := by
      rw [hcap]
      omega
    rw [pushSeq, RingBuffer.push, if_neg hc0]
    refine ⟨hcap, ?_, ?_, ?_⟩
    · rw [htot]
    · rw [hpos, hcap, Nat.mod_add_mod]
    · intro j hj hjc
      by_cases hjn : j = n
      · subst hjn
        simp [hpos]
      · have hj' : j < n := Nat.lt_of_le_of_ne (Nat.lt_succ_iff.mp hj) hjn
        have hjc' : n ≤ j + R * D := Nat.le_of_succ_le hjc
        have hne : j % (R * D) ≠ n % (R * D) := by
          intro heq
          have hdvd : R * D ∣ n - j :=
            (Nat.modEq_iff_dvd' (Nat.le_of_lt hj')).mp heq
          have hle : R * D ≤ n - j := Nat.le_of_dvd (by omega) hdvd
          omega
        simp only [hpos]
        rw [if_neg hne]
        exact hslots j hj' hjc'

/-- Claim C3 (ring buffer modelled from the spec): for every frame rate R
and delay D seconds with R × D > 0, the buffer capacity is R × D, and
after R × D + k pushes of the frames f 0, f 1, ... readDelayed() returns
the frame exactly capacity samples behind the write position, namely f k;
with R = 15, D = 10 (capacity 150) and 151 pushes that is frame #1
(0-indexed) of the pushed sequence. -/
theorem ringBuffer_delay {α : Type} (R D k : Nat) (f : Nat → α)
    (h : 0 < R * D) :
    (RingBuffer.empty α R D).capacity = R * D ∧
    (pushSeq (RingBuffer.empty α R D) f (R * D + k)).readDelayed = some (f k) := by
  obtain ⟨hcap, htot, hpos, hslots⟩ := pushSeq_invariant R D h f (R * D + k)
  refine ⟨rfl, ?_⟩
  rw [RingBuffer.readDelayed, if_neg (by rw [htot, hcap]; omega), hpos,
    Nat.add_mod_left]
  exact hslots k (by omega) (by omega)

/-- Witness for C3 at the spec's example: rate 15 fps, delay 10 s give
capacity 150, and after 151 pushes of the identity sequence readDelayed
returns frame #1. -/
theorem ringBuffer_delay_witness :
    (RingBuffer.empty Nat 15 10).capacity = 150 ∧
    (pushSeq (RingBuffer.empty Nat 15 10) (fun i => i) 151).readDelayed = some 1 :=
  ringBuffer_delay 15 10 1 (fun i => i) (by decide)

end DelayedMirror
